import Mathlib

/-!
Shallow embedding of the `antigravity-acp` session-orchestration core:
the session store (`src/session.ts`, here `SessionManagerState` and its
operations), the stream translator (`src/stream-adapter.ts`), and the
protocol front-end / turn orchestrator (`src/acp-server.ts`).

Impure leaves are modelled as explicit parameters: `Date.now()` and
`Math.random()`-based fresh ids become an `Ambient` value, the JS heap of
`AbortController` objects becomes an explicit table of (id, aborted)
pairs, and the backend HTTP stream becomes a `BackendOutcome` parameter.
-/

namespace AntigravityAcp

/-- JSON runtime values (TypeScript `unknown` at the JSON boundary). -/
inductive JsonValue where
  | str (s : String)
  | num (n : Int)
  | boolVal (b : Bool)
  | null
  | arr (elems : List JsonValue)
  | obj (fields : List (String × JsonValue))

/-- Embeds `JsonSchema` from `src/types/acp.ts` (the fields the core reads). -/
inductive JsonSchema where
  | mk (type : String)
       (properties : Option (List (String × JsonSchema)))
       (required : Option (List String))
       (description : Option String)
       (items : Option JsonSchema)
       (enumVals : Option (List String))

/-- Embeds `FunctionCall` from `src/types/antigravity.ts`. -/
structure FunctionCall where
  name : String
  args : JsonValue
  id : Option String

/-- Embeds `FunctionResponse` from `src/types/antigravity.ts`. -/
structure FunctionResponse where
  name : String
  response : JsonValue
  id : Option String

/-- Embeds `GeminiPart`: a TypeScript object whose variant is decided by which
fields are present (`'text' in part`, `'thought' in part`, ...).  Each
possible field is an `Option`; `none` models an absent key. -/
structure Part where
  text : Option String := none
  thought : Option Bool := none
  inlineData : Option (String × String) := none
  functionCall : Option FunctionCall := none
  functionResponse : Option FunctionResponse := none

/-- Embeds `{ text }` part as built by the session store. -/
def textPart (t : String) : Part := { text := some t }

/-- Embeds `{ functionCall }` part as built by the session store. -/
def functionCallPart (fc : FunctionCall) : Part := { functionCall := some fc }

/-- Embeds `{ functionResponse }` part as built by the session store. -/
def functionResponsePart (fr : FunctionResponse) : Part := { functionResponse := some fr }

/-- Embeds `GeminiContent`: one history element (role plus ordered parts). -/
structure Content where
  role : String
  parts : List Part

/-- Embeds `AcpTool` from `src/types/acp.ts`. -/
structure AcpTool where
  name : String
  description : String
  inputSchema : JsonSchema

/-- Embeds `FinishReason` from `src/types/antigravity.ts`. -/
inductive FinishReason where
  | STOP
  | MAX_TOKENS
  | SAFETY
  | RECITATION
  | OTHER
  | TOOL_USE
deriving DecidableEq, Repr

/-- Embeds `GeminiCandidate` (`content` is read with optional chaining). -/
structure GeminiCandidate where
  content : Option Content
  finishReason : Option FinishReason

/-- Embeds `GeminiResponse`. -/
structure GeminiResponse where
  candidates : List GeminiCandidate

/-- Embeds `AntigravityStreamEvent`. -/
structure AntigravityStreamEvent where
  response : Option GeminiResponse
  error : Option (Int × String) := none

/-- Embeds `SessionUpdatePayload` from `src/types/acp.ts`.  The source carries a
redundant `kind` discriminator next to `type`; both are in one-to-one
correspondence with the constructor, and the orchestrator's `kind`
dispatch is modelled by matching on the constructor. -/
inductive SessionUpdatePayload where
  | agentMessageChunk (messageId : String) (index : Nat) (chunk : String)
  | agentThoughtChunk (thoughtId : String) (index : Nat) (chunk : String)
  | toolCall (callId : String) (tool : AcpTool) (input : JsonValue)
  | sessionComplete (reason : String)
  | sessionError (code : String) (message : String)

/-- Embeds `SessionUpdateNotification` (the constant `jsonrpc`/`method` framing
fields are omitted; `params` is inlined). -/
structure SessionUpdateNotification where
  sessionId : String
  update : SessionUpdatePayload

/-! ## Stream Translator — `src/stream-adapter.ts` -/

/-- Arguments of `createStreamAdapter` plus the ambient clock used by
`Date.now()` when a tool-call id must be synthesized. -/
structure StreamAdapterCfg where
  sessionId : String
  tools : List AcpTool := []
  now : Nat

/-- The adapter's mutable closure state. -/
structure AdapterState where
  messageIndex : Nat
  accumulatedText : String
  currentToolCallId : Option String

/-- Fresh adapter state (`messageIndex = 0`, empty accumulated text). -/
def initialAdapterState : AdapterState :=
  { messageIndex := 0, accumulatedText := "", currentToolCallId := none }

/-- Embeds `new Map(tools.map((t) => [t.name, t]))` followed by `.get(name)`:
for duplicate names the later entry wins. -/
def lookupTool (tools : List AcpTool) (n : String) : Option AcpTool :=
  tools.foldl (fun acc t => if t.name == n then some t else acc) none

/-- Embeds `createMessageChunk`: reads and post-increments `messageIndex`. -/
def createMessageChunk (cfg : StreamAdapterCfg) (st : AdapterState) (text : String) :
    SessionUpdatePayload × AdapterState :=
  (.agentMessageChunk ("msg_" ++ cfg.sessionId ++ "_" ++ toString st.messageIndex)
      st.messageIndex text,
   { st with messageIndex := st.messageIndex + 1 })

/-- Embeds `createThoughtChunk`: the thought id also embeds the current
`messageIndex`, and the same counter is post-incremented. -/
def createThoughtChunk (cfg : StreamAdapterCfg) (st : AdapterState) (text : String) :
    SessionUpdatePayload × AdapterState :=
  (.agentThoughtChunk ("thought_" ++ cfg.sessionId ++ "_" ++ toString st.messageIndex)
      st.messageIndex text,
   { st with messageIndex := st.messageIndex + 1 })

/-- The minimal tool definition synthesized for a name missing from the
adapter's catalogue: `{ name, description: '', inputSchema: { type:
'object', properties: {} } }`. -/
def minimalTool (n : String) : AcpTool :=
  { name := n, description := "",
    inputSchema := .mk "object" (some []) none none none none }

/-- Embeds `createToolCall`: `functionCall.id || call_<sid>_<Date.now()>` (the
empty string is falsy, so it is replaced too), catalogue lookup with a
synthesized fallback, and `currentToolCallId` is recorded. -/
def createToolCall (cfg : StreamAdapterCfg) (st : AdapterState) (functionCall : FunctionCall) :
    SessionUpdatePayload × AdapterState :=
  let callId :=
    match functionCall.id with
    | some i => if i ≠ "" then i else "call_" ++ cfg.sessionId ++ "_" ++ toString cfg.now
    | none => "call_" ++ cfg.sessionId ++ "_" ++ toString cfg.now
  let tool :=
    match lookupTool cfg.tools functionCall.name with
    | some t => t
    | none => minimalTool functionCall.name
  (.toolCall callId tool functionCall.args,
   { st with currentToolCallId := some callId })

/-- Wraps an update with the notification envelope (`createNotification`). -/
def createNotification (cfg : StreamAdapterCfg) (u : SessionUpdatePayload) :
    SessionUpdateNotification :=
  { sessionId := cfg.sessionId, update := u }

/-- One iteration of the per-part dispatch in `processEvent`:
`'thought' in part && part.thought`, else
`'text' in part && part.text && !('thought' in part)`, else
`'functionCall' in part && part.functionCall`, else nothing. -/
def processPart (cfg : StreamAdapterCfg) (st : AdapterState) (part : Part) :
    List SessionUpdateNotification × AdapterState :=
  if part.thought = some true then
    let (u, st') := createThoughtChunk cfg st (part.text.getD "")
    ([createNotification cfg u], st')
  else if part.thought = none ∧ part.text.getD "" ≠ "" then
    let t := part.text.getD ""
    let (u, st') := createMessageChunk cfg st t
    ([createNotification cfg u],
     { st' with accumulatedText := st'.accumulatedText ++ t })
  else
    match part.functionCall with
    | some fc =>
      let (u, st') := createToolCall cfg st fc
      ([createNotification cfg u], st')
    | none => ([], st)

/-- The inner `for (const part of parts)` loop. -/
def processParts (cfg : StreamAdapterCfg) (st : AdapterState) :
    List Part → List SessionUpdateNotification × AdapterState
  | [] => ([], st)
  | p :: ps =>
    let (ns, st') := processPart cfg st p
    let (rest, st'') := processParts cfg st' ps
    (ns ++ rest, st'')

/-- The `finishReason` if/else-if chain at the end of the candidate loop. -/
def finishNotifications (cfg : StreamAdapterCfg) (fr : Option FinishReason) :
    List SessionUpdateNotification :=
  match fr with
  | some .STOP => [createNotification cfg (.sessionComplete "end_turn")]
  | some .TOOL_USE => [createNotification cfg (.sessionComplete "tool_use")]
  | some .SAFETY =>
    [createNotification cfg (.sessionError "SAFETY_BLOCK" "Content blocked by safety filters")]
  | some .MAX_TOKENS => [createNotification cfg (.sessionComplete "max_tokens")]
  | _ => []

/-- One iteration of `for (const candidate of candidates)`.  Note that
`if (!parts?.length) continue` skips the finish-marker mapping as well
when the candidate has no parts. -/
def processCandidate (cfg : StreamAdapterCfg) (st : AdapterState) (c : GeminiCandidate) :
    List SessionUpdateNotification × AdapterState :=
  let parts := match c.content with
    | some ct => ct.parts
    | none => []
  if parts.isEmpty then ([], st)
  else
    let (ns, st') := processParts cfg st parts
    (ns ++ finishNotifications cfg c.finishReason, st')

/-- The outer candidate loop. -/
def processCandidates (cfg : StreamAdapterCfg) (st : AdapterState) :
    List GeminiCandidate → List SessionUpdateNotification × AdapterState
  | [] => ([], st)
  | c :: cs =>
    let (ns, st') := processCandidate cfg st c
    let (rest, st'') := processCandidates cfg st' cs
    (ns ++ rest, st'')

/-- Embeds `processEvent`: `event.response?.candidates`; an absent response or an
empty candidate list yields no notifications. -/
def processEvent (cfg : StreamAdapterCfg) (st : AdapterState) (event : AntigravityStreamEvent) :
    List SessionUpdateNotification × AdapterState :=
  match event.response with
  | none => ([], st)
  | some r => processCandidates cfg st r.candidates

/-- Processing a whole list of events from a given adapter state. -/
def processEvents (cfg : StreamAdapterCfg) (st : AdapterState) :
    List AntigravityStreamEvent → List SessionUpdateNotification × AdapterState
  | [] => ([], st)
  | e :: es =>
    let (ns, st') := processEvent cfg st e
    let (rest, st'') := processEvents cfg st' es
    (ns ++ rest, st'')

/-- A freshly created adapter (`createStreamAdapter`) run over a stream. -/
def runAdapter (cfg : StreamAdapterCfg) (events : List AntigravityStreamEvent) :
    List SessionUpdateNotification × AdapterState :=
  processEvents cfg initialAdapterState events

/-! ## Session Store — `src/session.ts`

`AbortController` objects live on the JS heap and are shared by
reference between a session's `abortController` slot and the in-flight
fetch.  They are modelled as entries of an explicit `controllers` table
`(id, aborted)`; a session's slot holds an id into that table. -/

/-- Embeds `SessionState` from `src/session.ts` (`createdAt` is `Date.now()`;
`abortController` holds a reference into the controller table). -/
structure SessionState where
  id : String
  model : String
  systemInstruction : Option String
  tools : List AcpTool
  contents : List Content
  createdAt : Nat
  abortController : Option Nat

/-- Embeds `SessionConfig` from `src/types/acp.ts` (the fields the session
store reads; the numeric generation options are never consumed by the
embedded core and are omitted). -/
structure SessionConfig where
  model : Option String := none
  systemPrompt : Option String := none
  systemInstruction : Option String := none
  tools : Option (List AcpTool) := none

/-- The `createSessionManager` closure state, together with the
controller heap. -/
structure SessionManagerState where
  defaultModel : String
  sessions : List SessionState
  controllers : List (Nat × Bool)
  nextController : Nat

/-- Embeds `sessions.get(sessionId)` (ids are unique, so first match). -/
def findSession (m : SessionManagerState) (sid : String) : Option SessionState :=
  m.sessions.find? (fun s => s.id == sid)

/-- In-place mutation of the session stored under `sid` (no-op when the
session is absent, matching every `if (!session) return` guard). -/
def updateSessionList (sid : String) (f : SessionState → SessionState) :
    List SessionState → List SessionState
  | [] => []
  | s :: rest =>
    if s.id == sid then f s :: rest else s :: updateSessionList sid f rest

/-- Lifts `updateSessionList` to the manager state. -/
def updateSession (m : SessionManagerState) (sid : String) (f : SessionState → SessionState) :
    SessionManagerState :=
  { m with sessions := updateSessionList sid f m.sessions }

/-- Embeds `ctrl.abort()`: marks the controller with the given id aborted. -/
def abortController (m : SessionManagerState) (cid : Nat) : SessionManagerState :=
  { m with controllers := m.controllers.map (fun p => if p.1 == cid then (p.1, true) else p) }

/-- Embeds `new AbortController()`: allocates a fresh, un-aborted controller. -/
def newController (m : SessionManagerState) : Nat × SessionManagerState :=
  (m.nextController,
   { m with controllers := m.controllers ++ [(m.nextController, false)],
            nextController := m.nextController + 1 })

/-- Embeds `createSession`: `config?.model || defaultModel`,
`config?.systemInstruction || config?.systemPrompt`, `config?.tools ||
[]`, empty history, no abort controller.  The `Date.now()`/random id is
supplied as `freshId` and the clock as `now`. -/
def createSession (m : SessionManagerState) (freshId : String) (now : Nat)
    (config : Option SessionConfig) : SessionState × SessionManagerState :=
  let model :=
    match config.bind (·.model) with
    | some s => if s ≠ "" then s else m.defaultModel
    | none => m.defaultModel
  let systemInstruction :=
    match config.bind (·.systemInstruction) with
    | some s => if s ≠ "" then some s else config.bind (·.systemPrompt)
    | none => config.bind (·.systemPrompt)
  let session : SessionState :=
    { id := freshId, model := model, systemInstruction := systemInstruction,
      tools := (config.bind (·.tools)).getD [], contents := [],
      createdAt := now, abortController := none }
  (session, { m with sessions := m.sessions ++ [session] })

/-- Embeds `addUserMessage`: pushes `{ role: 'user', parts: [{ text }] }`. -/
def addUserMessage (m : SessionManagerState) (sid : String) (text : String) :
    SessionManagerState :=
  match findSession m sid with
  | none => m
  | some _ =>
    updateSession m sid (fun s => { s with contents := s.contents ++ [⟨"user", [textPart text]⟩] })

/-- Embeds `lastContent.parts.find((p) => 'text' in p && !('thought' in p))`
followed by `textPart.text += text`: appends `t` to the first part whose
`text` key is present and whose `thought` key is absent, returning
`none` when there is no such part. -/
def appendToTextPart (t : String) : List Part → Option (List Part)
  | [] => none
  | p :: ps =>
    if p.text.isSome ∧ p.thought = none then
      some ({ p with text := some (p.text.getD "" ++ t) } :: ps)
    else
      (appendToTextPart t ps).map (p :: ·)

/-- Embeds `addAssistantMessage`: if the last history element has role `model`
and contains a plain text part, the text is appended into that part;
otherwise a new `{ role: 'model', parts: [{ text }] }` element is
pushed. -/
def addAssistantMessage (m : SessionManagerState) (sid : String) (text : String) :
    SessionManagerState :=
  match findSession m sid with
  | none => m
  | some s =>
    match s.contents.getLast? with
    | some last =>
      if last.role == "model" then
        match appendToTextPart text last.parts with
        | some ps' =>
          updateSession m sid
            (fun s => { s with contents := s.contents.dropLast ++ [{ last with parts := ps' }] })
        | none =>
          updateSession m sid
            (fun s => { s with contents := s.contents ++ [⟨"model", [textPart text]⟩] })
      else
        updateSession m sid
          (fun s => { s with contents := s.contents ++ [⟨"model", [textPart text]⟩] })
    | none =>
      updateSession m sid
        (fun s => { s with contents := s.contents ++ [⟨"model", [textPart text]⟩] })

/-- Embeds `addToolCall`: appends a `{ functionCall }` part to the last element
when it has role `model`, else pushes a new model element holding only
the call. -/
def addToolCall (m : SessionManagerState) (sid : String) (functionCall : FunctionCall) :
    SessionManagerState :=
  match findSession m sid with
  | none => m
  | some s =>
    match s.contents.getLast? with
    | some last =>
      if last.role == "model" then
        updateSession m sid
          (fun s => { s with contents :=
            s.contents.dropLast ++ [{ last with parts := last.parts ++ [functionCallPart functionCall] }] })
      else
        updateSession m sid
          (fun s => { s with contents := s.contents ++ [⟨"model", [functionCallPart functionCall]⟩] })
    | none =>
      updateSession m sid
        (fun s => { s with contents := s.contents ++ [⟨"model", [functionCallPart functionCall]⟩] })

/-- Embeds `typeof result === 'string' ? { output: result } : result`. -/
def normalizeToolResult (result : JsonValue) : JsonValue :=
  match result with
  | .str s => .obj [("output", .str s)]
  | v => v

/-- Embeds `addToolResult`: pushes a user-role element whose single part is a
`functionResponse` named after the tool, keyed by `callId`, with the
normalized result body. -/
def addToolResult (m : SessionManagerState) (sid callId name : String) (result : JsonValue) :
    SessionManagerState :=
  match findSession m sid with
  | none => m
  | some _ =>
    updateSession m sid (fun s =>
      { s with contents := s.contents ++
          [⟨"user", [functionResponsePart
              { name := name, response := normalizeToolResult result, id := some callId }]⟩] })

/-- Embeds `setAbortController`: stores `controller` when the session exists. -/
def setAbortController (m : SessionManagerState) (sid : String) (controller : Option Nat) :
    SessionManagerState :=
  updateSession m sid (fun s => { s with abortController := controller })

/-- Embeds `cancelSession`: aborts and clears a live controller, reporting
whether anything was cancelled; absent session or empty slot is `false`
with the state unchanged. -/
def cancelSession (m : SessionManagerState) (sid : String) : Bool × SessionManagerState :=
  match findSession m sid with
  | some s =>
    match s.abortController with
    | some cid =>
      (true, setAbortController (abortController m cid) sid none)
    | none => (false, m)
  | none => (false, m)

/-- Embeds `getContents`: the session's history, or `[]` when absent. -/
def getContents (m : SessionManagerState) (sid : String) : List Content :=
  match findSession m sid with
  | some s => s.contents
  | none => []

/-- Embeds `clear`: aborts every live controller, then discards all sessions. -/
def clearSessions (m : SessionManagerState) : SessionManagerState :=
  let m' := m.sessions.foldl
    (fun acc s =>
      match s.abortController with
      | some cid => abortController acc cid
      | none => acc) m
  { m' with sessions := [] }

/-! ## Default tool catalogue — `src/tools.ts` -/

/-- Leaf schema `{ type: 'string' | 'number' | 'boolean', description }`. -/
def leafSchema (ty desc : String) : JsonSchema :=
  .mk ty none none (some desc) none none

/-- Embeds `ACP_TOOLS` from `src/tools.ts`. -/
def ACP_TOOLS : List AcpTool :=
  [ { name := "read_file",
      description := "Read the contents of a file at the specified path",
      inputSchema := .mk "object"
        (some [("path", leafSchema "string" "The absolute or relative path to the file to read"),
               ("offset", leafSchema "number" "Line number to start reading from (0-based)"),
               ("limit", leafSchema "number" "Maximum number of lines to read")])
        (some ["path"]) none none none },
    { name := "write_file",
      description := "Write content to a file at the specified path, creating it if it does not exist",
      inputSchema := .mk "object"
        (some [("path", leafSchema "string" "The absolute or relative path to the file to write"),
               ("content", leafSchema "string" "The content to write to the file")])
        (some ["path", "content"]) none none none },
    { name := "edit_file",
      description := "Make targeted edits to a file by replacing specific text",
      inputSchema := .mk "object"
        (some [("path", leafSchema "string" "The path to the file to edit"),
               ("old_string", leafSchema "string" "The exact text to find and replace"),
               ("new_string", leafSchema "string" "The text to replace with")])
        (some ["path", "old_string", "new_string"]) none none none },
    { name := "list_directory",
      description := "List files and directories at the specified path",
      inputSchema := .mk "object"
        (some [("path", leafSchema "string" "The path to the directory to list"),
               ("recursive", leafSchema "boolean" "Whether to list recursively")])
        (some ["path"]) none none none },
    { name := "search_files",
      description := "Search for files matching a pattern",
      inputSchema := .mk "object"
        (some [("pattern", leafSchema "string" "Glob pattern to match files"),
               ("path", leafSchema "string" "Directory to search in")])
        (some ["pattern"]) none none none },
    { name := "search_content",
      description := "Search for content within files using regex",
      inputSchema := .mk "object"
        (some [("pattern", leafSchema "string" "Regular expression pattern to search for"),
               ("path", leafSchema "string" "Directory to search in"),
               ("include", leafSchema "string" "File pattern to include (e.g., \"*.ts\")")])
        (some ["pattern"]) none none none },
    { name := "execute_command",
      description := "Execute a shell command",
      inputSchema := .mk "object"
        (some [("command", leafSchema "string" "The command to execute"),
               ("cwd", leafSchema "string" "Working directory for the command"),
               ("timeout", leafSchema "number" "Timeout in milliseconds")])
        (some ["command"]) none none none } ]

/-- Embeds `FunctionDeclaration` from `src/types/antigravity.ts`. -/
structure FunctionDeclaration where
  name : String
  description : String
  parameters : JsonSchema

/-- Embeds `acpToolsToFunctionDeclarations` from `src/tools.ts`. -/
def acpToolsToFunctionDeclarations (tools : List AcpTool) : List FunctionDeclaration :=
  tools.map (fun tool =>
    { name := tool.name, description := tool.description, parameters := tool.inputSchema })

/-! ## JSON serialization leaf (`JSON.stringify` on message content) -/

/-- Escaping applied by `JSON.stringify` inside string literals (the
characters relevant to this development). -/
def escapeJsonString (s : String) : String :=
  s.foldl
    (fun acc c =>
      acc ++ (if c = '\\' then "\\\\"
              else if c = '\"' then "\\\""
              else if c = '\n' then "\\n"
              else String.singleton c)) ""

mutual

/-- Embeds `JSON.stringify` over the embedded JSON values. -/
def jsonStringify : JsonValue → String
  | .str s => "\"" ++ escapeJsonString s ++ "\""
  | .num n => toString n
  | .boolVal b => if b then "true" else "false"
  | .null => "null"
  | .arr xs => "[" ++ jsonStringifyList xs ++ "]"
  | .obj fs => "\x7b" ++ jsonStringifyFields fs ++ "\x7d"

/-- Comma-joined serialization of array elements. -/
def jsonStringifyList : List JsonValue → String
  | [] => ""
  | [x] => jsonStringify x
  | x :: y :: xs => jsonStringify x ++ "," ++ jsonStringifyList (y :: xs)

/-- Comma-joined serialization of object entries. -/
def jsonStringifyFields : List (String × JsonValue) → String
  | [] => ""
  | [(k, v)] => "\"" ++ escapeJsonString k ++ "\":" ++ jsonStringify v
  | (k, v) :: f :: fs =>
    "\"" ++ escapeJsonString k ++ "\":" ++ jsonStringify v ++ "," ++ jsonStringifyFields (f :: fs)

end

/-! ## Protocol front-end and turn orchestrator — `src/acp-server.ts` -/

/-- Embeds `AcpMessage.content`: `string | AcpContent[]`. -/
inductive MessageContent where
  | str (s : String)
  | blocks (bs : List JsonValue)

/-- Embeds `AcpMessage`. -/
structure AcpMessage where
  role : String
  content : MessageContent

/-- Embeds `PromptParams`. -/
structure PromptParams where
  sessionId : String
  messages : List AcpMessage

/-- The `tool` field of `ToolResultParams` (only `name` is read). -/
structure ToolRef where
  name : String

/-- Embeds `ToolResultParams` (the fields the handler reads). -/
structure ToolResultParams where
  sessionId : String
  callId : String
  tool : ToolRef
  result : JsonValue

/-- JSON-RPC results the server can produce (the large `initialize`
payload is a fixed constant and is collapsed to one constructor). -/
inductive RpcResult where
  | initializeResult
  | newSessionResult (sessionId : String)
  | promptResult (pending : Option (List (String × String)))
  | cancelResult (cancelled : Bool)
  | emptyResult

/-- One line written to stdout: a response, an error response, or a
`sessionUpdate` notification. -/
inductive OutItem where
  | response (id : Nat) (result : RpcResult)
  | errorResponse (id : Nat) (code : Int) (message : String)
  | notification (n : SessionUpdateNotification)

/-- Embeds `GeminiSystemInstruction` is `{ parts }`; represented by its parts. -/
structure BackendRequest where
  model : String
  contents : List Content
  systemInstruction : Option (List Part)
  tools : Option (List (List FunctionDeclaration))

/-- Outcome of `streamGenerateContent` plus the surrounding `for await`
loop: either the whole stream, or the events already delivered before a
failure, tagged with whether the failure was an `AbortError`. -/
inductive BackendOutcome where
  | ok (events : List AntigravityStreamEvent)
  | failure (processed : List AntigravityStreamEvent) (isAbortError : Bool) (message : String)

/-- The impure inputs of one handler invocation: whether
`loadAuthFromConfig` finds credentials, the fresh session id, the
`Date.now()` clock, and the backend stream outcome. -/
structure Ambient where
  authOk : Bool := true
  freshSessionId : String := "session_0"
  now : Nat := 0
  backend : BackendOutcome := .ok []

/-- The `createAcpServer` closure state. -/
structure ServerState where
  initialized : Bool
  hasClient : Bool
  tools : List AcpTool
  manager : SessionManagerState

/-- Embeds `AcpServerOptions`. -/
structure AcpServerOptions where
  defaultModel : Option String := none
  tools : Option (List AcpTool) := none

/-- Embeds `createAcpServer` + `createSessionManager`: `options.tools ||
ACP_TOOLS` (an empty array is truthy in JS and kept), and
`options.defaultModel || 'gemini-2.0-flash'`. -/
def createAcpServer (options : AcpServerOptions) : ServerState :=
  { initialized := false, hasClient := false,
    tools := options.tools.getD ACP_TOOLS,
    manager :=
      { defaultModel :=
          match options.defaultModel with
          | some s => if s ≠ "" then s else "gemini-2.0-flash"
          | none => "gemini-2.0-flash",
        sessions := [], controllers := [], nextController := 0 } }

/-- Embeds `handleInitialize`: builds the client when credentials are found and
flips the `initialized` flag unconditionally. -/
def handleInitialize (st : ServerState) (amb : Ambient) (id : Nat) :
    ServerState × List OutItem :=
  ({ st with hasClient := if amb.authOk then true else st.hasClient, initialized := true },
   [.response id .initializeResult])

/-- Embeds `handleNewSession`: gated on `initialized` (-32002) and on an
authenticated client (-32001), then delegates to `createSession`. -/
def handleNewSession (st : ServerState) (amb : Ambient) (id : Nat)
    (config : Option SessionConfig) : ServerState × List OutItem :=
  if !st.initialized then
    (st, [.errorResponse id (-32002) "Server not initialized"])
  else if !st.hasClient then
    (st, [.errorResponse id (-32001) "Authentication required"])
  else
    let (session, m') := createSession st.manager amb.freshSessionId amb.now config
    ({ st with manager := m' }, [.response id (.newSessionResult session.id)])

/-- Embeds `typeof m.content === 'string' ? m.content : JSON.stringify(m.content)`. -/
def messageContentToText : MessageContent → String
  | .str s => s
  | .blocks bs => jsonStringify (.arr bs)

/-- The user text of a prompt: user-role fragments joined by newline. -/
def promptUserText (messages : List AcpMessage) : String :=
  String.intercalate "\n"
    ((messages.filter (fun msg => msg.role == "user")).map
      (fun msg => messageContentToText msg.content))

/-- Accumulator for one turn: the store being mutated, the local
`pendingToolCalls` list, and the stdout lines emitted so far. -/
structure TurnAcc where
  manager : SessionManagerState
  pending : List (String × String)
  outputs : List OutItem

/-- The per-notification body of the orchestration loop: emit the
notification, record tool calls into `pending` and the history, and on a
`finish`-kind update commit the accumulated text when non-empty.
`accText` is the adapter's `getAccumulatedText()` at that point. -/
def applyNotification (sid : String) (accText : String) (acc : TurnAcc)
    (n : SessionUpdateNotification) : TurnAcc :=
  let acc := { acc with outputs := acc.outputs ++ [.notification n] }
  match n.update with
  | .toolCall callId tool input =>
    { acc with
      pending := acc.pending ++ [(callId, tool.name)],
      manager := addToolCall acc.manager sid
        { name := tool.name, args := input, id := some callId } }
  | .sessionComplete _ =>
    if accText ≠ "" then { acc with manager := addAssistantMessage acc.manager sid accText }
    else acc
  | _ => acc

/-- Embeds `for (const notification of notifications)`. -/
def applyNotifications (sid : String) (accText : String) :
    TurnAcc → List SessionUpdateNotification → TurnAcc
  | acc, [] => acc
  | acc, n :: ns => applyNotifications sid accText (applyNotification sid accText acc n) ns

/-- Embeds `for await (const event of stream)`: each event is translated in
full by `processEvent` before its notifications are handled, so the
accumulated text seen by the `finish` branch is the value after the
whole event. -/
def runTurnEvents (cfg : StreamAdapterCfg) (sid : String) :
    AdapterState → TurnAcc → List AntigravityStreamEvent → TurnAcc × AdapterState
  | adSt, acc, [] => (acc, adSt)
  | adSt, acc, e :: es =>
    let (ns, adSt') := processEvent cfg adSt e
    let acc' := applyNotifications sid adSt'.accumulatedText acc ns
    runTurnEvents cfg sid adSt' acc' es

/-- The try/catch/finally tail shared by `handlePrompt` and
`handleToolResult`: run the turn, produce the response or the mapped
error, and in a guaranteed final step clear the abort-controller slot. -/
def finishTurn (st : ServerState) (amb : Ambient) (id : Nat) (sid : String)
    (m : SessionManagerState) : ServerState × List OutItem :=
  let cfg : StreamAdapterCfg := { sessionId := sid, tools := [], now := amb.now }
  match amb.backend with
  | .ok events =>
    let (acc, _) := runTurnEvents cfg sid initialAdapterState ⟨m, [], []⟩ events
    let result := RpcResult.promptResult
      (if acc.pending.length > 0 then some acc.pending else none)
    let mFinal := setAbortController acc.manager sid none
    ({ st with manager := mFinal }, acc.outputs ++ [.response id result])
  | .failure processed isAbort msg =>
    let (acc, _) := runTurnEvents cfg sid initialAdapterState ⟨m, [], []⟩ processed
    let err :=
      if isAbort then OutItem.errorResponse id (-32001) "Request cancelled"
      else OutItem.errorResponse id (-32000) msg
    let mFinal := setAbortController acc.manager sid none
    ({ st with manager := mFinal }, acc.outputs ++ [err])

/-- The backend request built in step 3 of the turn (recorded for
observability; its construction has no effect on the handler state). -/
def buildBackendRequest (st : ServerState) (session : SessionState)
    (m : SessionManagerState) (sid : String) : BackendRequest :=
  let functionDeclarations := acpToolsToFunctionDeclarations
    (if session.tools.length > 0 then session.tools else st.tools)
  { model := session.model,
    contents := getContents m sid,
    systemInstruction :=
      match session.systemInstruction with
      | some s => if s ≠ "" then some [textPart s] else none
      | none => none,
    tools :=
      if functionDeclarations.length > 0 then some [functionDeclarations] else none }

/-- Embeds `handlePrompt`. -/
def handlePrompt (st : ServerState) (amb : Ambient) (id : Nat) (params : PromptParams) :
    ServerState × List OutItem × Option BackendRequest :=
  if !st.initialized || !st.hasClient then
    (st, [.errorResponse id (-32002) "Server not initialized"], none)
  else
    match findSession st.manager params.sessionId with
    | none =>
      (st, [.errorResponse id (-32001) ("Session not found: " ++ params.sessionId)], none)
    | some session =>
      let userText := promptUserText params.messages
      let m1 :=
        if userText ≠ "" then addUserMessage st.manager params.sessionId userText
        else st.manager
      let (cid, m2) := newController m1
      let m3 := setAbortController m2 params.sessionId (some cid)
      let request := buildBackendRequest st session m3 params.sessionId
      let (st', outs) := finishTurn st amb id params.sessionId m3
      (st', outs, some request)

/-- Embeds `handleToolResult`: identical to `handlePrompt` except that the
triggering input recorded into history is the tool result. -/
def handleToolResult (st : ServerState) (amb : Ambient) (id : Nat)
    (params : ToolResultParams) : ServerState × List OutItem × Option BackendRequest :=
  if !st.initialized || !st.hasClient then
    (st, [.errorResponse id (-32002) "Server not initialized"], none)
  else
    match findSession st.manager params.sessionId with
    | none =>
      (st, [.errorResponse id (-32001) ("Session not found: " ++ params.sessionId)], none)
    | some session =>
      let m1 := addToolResult st.manager params.sessionId params.callId params.tool.name
        params.result
      let (cid, m2) := newController m1
      let m3 := setAbortController m2 params.sessionId (some cid)
      let request := buildBackendRequest st session m3 params.sessionId
      let (st', outs) := finishTurn st amb id params.sessionId m3
      (st', outs, some request)

/-- Embeds `handleCancel`: not gated on initialization; always answers with a
result carrying whether anything was cancelled. -/
def handleCancel (st : ServerState) (id : Nat) (sid : String) :
    ServerState × List OutItem :=
  let (cancelled, m') := cancelSession st.manager sid
  ({ st with manager := m' }, [.response id (.cancelResult cancelled)])

/-- Embeds `handleShutdown`: clears the store and acknowledges (the subsequent
`process.exit(0)` is outside the embedded state). -/
def handleShutdown (st : ServerState) (id : Nat) : ServerState × List OutItem :=
  ({ st with manager := clearSessions st.manager }, [.response id .emptyResult])

/-- One inbound request, already routed to its typed parameters (the
first constructor is the `initialize` method; the bare method name is
avoided as a Lean identifier). -/
inductive Request where
  | initReq (id : Nat)
  | newSession (id : Nat) (config : Option SessionConfig)
  | prompt (id : Nat) (params : PromptParams)
  | toolResult (id : Nat) (params : ToolResultParams)
  | cancel (id : Nat) (sessionId : String)
  | shutdown (id : Nat)
  | unknown (id : Nat) (method : String)

/-- Embeds `handleRequest`: the method switch. -/
def handleRequest (st : ServerState) (amb : Ambient) : Request → ServerState × List OutItem
  | .initReq id => handleInitialize st amb id
  | .newSession id config => handleNewSession st amb id config
  | .prompt id params =>
    let (st', outs, _) := handlePrompt st amb id params
    (st', outs)
  | .toolResult id params =>
    let (st', outs, _) := handleToolResult st amb id params
    (st', outs)
  | .cancel id sid => handleCancel st id sid
  | .shutdown id => handleShutdown st id
  | .unknown id method => (st, [.errorResponse id (-32601) ("Method not found: " ++ method)])

/-! # Verification of the specified properties -/

/-! ## C1 — end-to-end "hi"/"hello" scenario -/

/-- Server freshly created, initialized with credentials available. -/
def serverAfterInit : ServerState :=
  (handleInitialize (createAcpServer {}) { authOk := true } 1).1

/-- A session created with no tool-catalogue override (no config). -/
def serverAfterNewSession : ServerState :=
  (handleNewSession serverAfterInit { freshSessionId := "s1" } 2 none).1

/-- The backend stream event: one candidate with one plain text part
`"hello"` and the normal-stop finish marker. -/
def helloEvent : AntigravityStreamEvent :=
  { response := some { candidates :=
      [{ content := some ⟨"model", [textPart "hello"]⟩, finishReason := some .STOP }] } }

/-- The prompt turn with user text `"hi"` over that stream. -/
def helloPromptRun : ServerState × List OutItem × Option BackendRequest :=
  handlePrompt serverAfterNewSession { backend := .ok [helloEvent] } 3
    { sessionId := "s1", messages := [⟨"user", .str "hi"⟩] }

/-- C1: with no tool-catalogue override, a prompt `"hi"` over a stream of
one `"hello"` text part plus normal stop emits exactly an
`agent_message_chunk "hello"` then a `session_complete "end_turn"`, the
RPC response carries no pending field, and the history ends as user
`"hi"` followed by a model element `"hello"`. -/
theorem c1_end_to_end_hello_scenario :
    helloPromptRun.2.1 =
      [.notification ⟨"s1", .agentMessageChunk "msg_s1_0" 0 "hello"⟩,
       .notification ⟨"s1", .sessionComplete "end_turn"⟩,
       .response 3 (.promptResult none)] ∧
    (findSession helloPromptRun.1.manager "s1").map (fun s => s.contents) =
      some [⟨"user", [textPart "hi"]⟩, ⟨"model", [textPart "hello"]⟩] :=
  ⟨rfl, rfl⟩

/-! ## C3 — per-part translation rules of the Stream Translator -/

/-- Embeds `{ text, thought: true }` part. -/
def thoughtPart (t : String) : Part := { text := some t, thought := some true }

/-- A stream of one candidate holding the given parts and no finish
marker. -/
def partsOnlyEvent (parts : List Part) : AntigravityStreamEvent :=
  { response := some { candidates :=
      [{ content := some ⟨"model", parts⟩, finishReason := none }] } }

/-- C3 counterexample: two thought parts in one turn carry *different*
thought identifiers (`thought_s_0` and `thought_s_1`), because the id
embeds the per-chunk counter — refuting the claimed stable per-turn
thought identifier. -/
theorem c3_counterexample_thought_id_not_stable :
    (runAdapter { sessionId := "s", now := 0 }
        [partsOnlyEvent [thoughtPart "a", thoughtPart "b"]]).1 =
      [⟨"s", .agentThoughtChunk "thought_s_0" 0 "a"⟩,
       ⟨"s", .agentThoughtChunk "thought_s_1" 1 "b"⟩] ∧
    ("thought_s_0" : String) ≠ "thought_s_1" :=
  ⟨rfl, by decide⟩

/-- C3 (amended): a thought-marked part yields one thought-chunk update
whose identifier embeds the current value of the shared chunk counter
(so it differs from chunk to chunk), whose index is that counter, and
whose chunk is the literal fragment; the accumulated text is unchanged.
A plain text part (thought key absent, non-empty text) is appended to
the accumulated text and yields one message-chunk update with the next
index. -/
theorem c3_part_translation_rules (cfg : StreamAdapterCfg) (st : AdapterState) (part : Part) :
    (part.thought = some true →
      processPart cfg st part =
        ([⟨cfg.sessionId,
            .agentThoughtChunk ("thought_" ++ cfg.sessionId ++ "_" ++ toString st.messageIndex)
              st.messageIndex (part.text.getD "")⟩],
         { st with messageIndex := st.messageIndex + 1 })) ∧
    (∀ t, part.thought = none → part.text = some t → t ≠ "" →
      processPart cfg st part =
        ([⟨cfg.sessionId,
            .agentMessageChunk ("msg_" ++ cfg.sessionId ++ "_" ++ toString st.messageIndex)
              st.messageIndex t⟩],
         { st with messageIndex := st.messageIndex + 1,
                   accumulatedText := st.accumulatedText ++ t })) := by
  constructor
  · intro h
    simp [processPart, h, createThoughtChunk, createNotification]
  · intro t h1 h2 h3
    simp [processPart, h1, h2, h3, createMessageChunk, createNotification]

/-- Witness for `c3_part_translation_rules` at concrete inputs. -/
theorem c3_part_translation_rules_witness :
    processPart { sessionId := "s", now := 0 } initialAdapterState (thoughtPart "a") =
      ([⟨"s", .agentThoughtChunk "thought_s_0" 0 "a"⟩],
       { initialAdapterState with messageIndex := 1 }) ∧
    processPart { sessionId := "s", now := 0 } initialAdapterState (textPart "x") =
      ([⟨"s", .agentMessageChunk "msg_s_0" 0 "x"⟩],
       { initialAdapterState with messageIndex := 1, accumulatedText := "x" }) := by
  refine ⟨?_, ?_⟩
  · exact (c3_part_translation_rules { sessionId := "s", now := 0 } initialAdapterState
      (thoughtPart "a")).1 rfl
  · exact (c3_part_translation_rules { sessionId := "s", now := 0 } initialAdapterState
      (textPart "x")).2 "x" rfl rfl (by decide)

/-! ## C4 — finish-marker mapping -/

/-- A candidate with no parts but a normal-stop finish marker. -/
def emptyPartsStopCandidate : GeminiCandidate :=
  { content := some ⟨"model", []⟩, finishReason := some .STOP }

/-- C4 counterexample: a candidate whose parts list is empty is skipped
entirely (`if (!parts?.length) continue`), so its normal-stop finish
marker yields *no* terminal update, refuting the claim that every
candidate's normal stop maps to a `session_complete "end_turn"`. -/
theorem c4_counterexample_empty_candidate_skips_finish :
    (processCandidate { sessionId := "s", now := 0 } initialAdapterState
        emptyPartsStopCandidate).1 = [] ∧
    emptyPartsStopCandidate.finishReason = some .STOP :=
  ⟨rfl, rfl⟩

/-- C4 (amended): for a candidate with at least one part, the finish
marker maps, after all parts, to exactly one terminal update (`STOP` →
`end_turn`, `TOOL_USE` → `tool_use`, `SAFETY` → `SAFETY_BLOCK` error,
`MAX_TOKENS` → `max_tokens`) and any other or absent marker adds
nothing; a candidate with no parts is skipped entirely and emits
nothing, even when a finish marker is present. -/
theorem c4_finish_marker_mapping (cfg : StreamAdapterCfg) (st : AdapterState)
    (c : GeminiCandidate) :
    (∀ ct, c.content = some ct → ct.parts ≠ [] →
      (processCandidate cfg st c).1 =
        (processParts cfg st ct.parts).1 ++
          (match c.finishReason with
           | some .STOP => [⟨cfg.sessionId, .sessionComplete "end_turn"⟩]
           | some .TOOL_USE => [⟨cfg.sessionId, .sessionComplete "tool_use"⟩]
           | some .SAFETY =>
             [⟨cfg.sessionId, .sessionError "SAFETY_BLOCK" "Content blocked by safety filters"⟩]
           | some .MAX_TOKENS => [⟨cfg.sessionId, .sessionComplete "max_tokens"⟩]
           | some .RECITATION => []
           | some .OTHER => []
           | none => [])) ∧
    (∀ ct, c.content = some ct → ct.parts = [] → (processCandidate cfg st c).1 = []) ∧
    (c.content = none → (processCandidate cfg st c).1 = []) := by
  refine ⟨?_, ?_, ?_⟩
  · intro ct hct hne
    simp only [processCandidate, hct]
    rw [if_neg (by simpa [List.isEmpty_iff] using hne)]
    cases hfr : c.finishReason with
    | none => simp [finishNotifications]
    | some fr => cases fr <;> simp [finishNotifications, createNotification]
  · intro ct hct hempty
    simp [processCandidate, hct, hempty]
  · intro hct
    simp [processCandidate, hct]

/-- Witness for `c4_finish_marker_mapping` at concrete inputs. -/
theorem c4_finish_marker_mapping_witness :
    (processCandidate { sessionId := "s", now := 0 } initialAdapterState
        { content := some ⟨"model", [textPart "x"]⟩, finishReason := some .STOP }).1 =
      (processParts { sessionId := "s", now := 0 } initialAdapterState [textPart "x"]).1 ++
        [⟨"s", .sessionComplete "end_turn"⟩] ∧
    (processCandidate { sessionId := "s", now := 0 } initialAdapterState
        emptyPartsStopCandidate).1 = [] := by
  refine ⟨?_, ?_⟩
  · exact (c4_finish_marker_mapping { sessionId := "s", now := 0 } initialAdapterState
      { content := some ⟨"model", [textPart "x"]⟩, finishReason := some .STOP }).1
      ⟨"model", [textPart "x"]⟩ rfl (by simp)
  · exact (c4_finish_marker_mapping { sessionId := "s", now := 0 } initialAdapterState
      emptyPartsStopCandidate).2.1 ⟨"model", []⟩ rfl rfl

/-! ## C10 — message and thought chunks share one strictly increasing
index counter -/

/-- The `index` values carried by message and thought chunks, in
emission order (tool calls and terminal updates carry no index). -/
def chunkIndices (ns : List SessionUpdateNotification) : List Nat :=
  ns.filterMap (fun n =>
    match n.update with
    | .agentMessageChunk _ i _ => some i
    | .agentThoughtChunk _ i _ => some i
    | _ => none)

theorem chunkIndices_append (a b : List SessionUpdateNotification) :
    chunkIndices (a ++ b) = chunkIndices a ++ chunkIndices b := by
  simp [chunkIndices]

/-- Composition step: consecutive chunk-index ranges concatenate. -/
theorem chunkRange_append {o1 o2 : List SessionUpdateNotification} {n k1 k2 : Nat}
    (h1 : chunkIndices o1 = List.range' n k1)
    (h2 : chunkIndices o2 = List.range' (n + k1) k2) :
    chunkIndices (o1 ++ o2) = List.range' n (k1 + k2) := by
  rw [chunkIndices_append, h1, h2, List.range'_append_1, Nat.add_comm k2 k1]

theorem processParts_cons (cfg : StreamAdapterCfg) (st : AdapterState) (p : Part)
    (ps : List Part) :
    processParts cfg st (p :: ps) =
      ((processPart cfg st p).1 ++ (processParts cfg (processPart cfg st p).2 ps).1,
       (processParts cfg (processPart cfg st p).2 ps).2) := rfl

theorem processCandidates_cons (cfg : StreamAdapterCfg) (st : AdapterState)
    (c : GeminiCandidate) (cs : List GeminiCandidate) :
    processCandidates cfg st (c :: cs) =
      ((processCandidate cfg st c).1 ++ (processCandidates cfg (processCandidate cfg st c).2 cs).1,
       (processCandidates cfg (processCandidate cfg st c).2 cs).2) := rfl

theorem processEvents_cons (cfg : StreamAdapterCfg) (st : AdapterState)
    (e : AntigravityStreamEvent) (es : List AntigravityStreamEvent) :
    processEvents cfg st (e :: es) =
      ((processEvent cfg st e).1 ++ (processEvents cfg (processEvent cfg st e).2 es).1,
       (processEvents cfg (processEvent cfg st e).2 es).2) := rfl

theorem processPart_chunkRange (cfg : StreamAdapterCfg) (st : AdapterState) (p : Part) :
    ∃ k, chunkIndices (processPart cfg st p).1 = List.range' st.messageIndex k ∧
      (processPart cfg st p).2.messageIndex = st.messageIndex + k := by
  by_cases h1 : p.thought = some true
  · refine ⟨1, ?_, ?_⟩ <;>
      simp [processPart, h1, createThoughtChunk, createNotification, chunkIndices]
  · by_cases h2 : p.thought = none ∧ p.text.getD "" ≠ ""
    · refine ⟨1, ?_, ?_⟩ <;>
        simp [processPart, h1, h2.1, h2.2, createMessageChunk, createNotification, chunkIndices]
    · cases hfc : p.functionCall with
      | some fc =>
        refine ⟨0, ?_, ?_⟩ <;>
          simp [processPart, h1, h2, hfc, createToolCall, createNotification, chunkIndices]
      | none =>
        refine ⟨0, ?_, ?_⟩ <;> simp [processPart, h1, h2, hfc, chunkIndices]

theorem processParts_chunkRange (cfg : StreamAdapterCfg) :
    ∀ (ps : List Part) (st : AdapterState),
      ∃ k, chunkIndices (processParts cfg st ps).1 = List.range' st.messageIndex k ∧
        (processParts cfg st ps).2.messageIndex = st.messageIndex + k
  | [], st => ⟨0, by simp [processParts, chunkIndices], rfl⟩
  | p :: ps, st => by
    obtain ⟨k1, h1, e1⟩ := processPart_chunkRange cfg st p
    obtain ⟨k2, h2, e2⟩ := processParts_chunkRange cfg ps (processPart cfg st p).2
    rw [processParts_cons]
    refine ⟨k1 + k2, ?_, ?_⟩
    · exact chunkRange_append h1 (by rw [h2, e1])
    · rw [e2, e1, Nat.add_assoc]

theorem finishNotifications_chunkIndices (cfg : StreamAdapterCfg) (fr : Option FinishReason) :
    chunkIndices (finishNotifications cfg fr) = [] := by
  cases fr with
  | none => simp [finishNotifications, chunkIndices]
  | some r => cases r <;> simp [finishNotifications, chunkIndices, createNotification]

theorem processCandidate_some_nonempty (cfg : StreamAdapterCfg) (st : AdapterState)
    (c : GeminiCandidate) (ct : Content) (hct : c.content = some ct)
    (hne : ct.parts.isEmpty = false) :
    processCandidate cfg st c =
      ((processParts cfg st ct.parts).1 ++ finishNotifications cfg c.finishReason,
       (processParts cfg st ct.parts).2) := by
  simp [processCandidate, hct, hne]

theorem processCandidate_chunkRange (cfg : StreamAdapterCfg) (st : AdapterState)
    (c : GeminiCandidate) :
    ∃ k, chunkIndices (processCandidate cfg st c).1 = List.range' st.messageIndex k ∧
      (processCandidate cfg st c).2.messageIndex = st.messageIndex + k := by
  cases hct : c.content with
  | none =>
    refine ⟨0, ?_, ?_⟩ <;> simp [processCandidate, hct, chunkIndices]
  | some ct =>
    cases hne : ct.parts.isEmpty with
    | true =>
      refine ⟨0, ?_, ?_⟩ <;> simp [processCandidate, hct, hne, chunkIndices]
    | false =>
      obtain ⟨k, h, e⟩ := processParts_chunkRange cfg ct.parts st
      rw [processCandidate_some_nonempty cfg st c ct hct hne]
      refine ⟨k, ?_, e⟩
      rw [chunkIndices_append, h, finishNotifications_chunkIndices, List.append_nil]

theorem processCandidates_chunkRange (cfg : StreamAdapterCfg) :
    ∀ (cs : List GeminiCandidate) (st : AdapterState),
      ∃ k, chunkIndices (processCandidates cfg st cs).1 = List.range' st.messageIndex k ∧
        (processCandidates cfg st cs).2.messageIndex = st.messageIndex + k
  | [], st => ⟨0, by simp [processCandidates, chunkIndices], rfl⟩
  | c :: cs, st => by
    obtain ⟨k1, h1, e1⟩ := processCandidate_chunkRange cfg st c
    obtain ⟨k2, h2, e2⟩ := processCandidates_chunkRange cfg cs (processCandidate cfg st c).2
    rw [processCandidates_cons]
    refine ⟨k1 + k2, ?_, ?_⟩
    · exact chunkRange_append h1 (by rw [h2, e1])
    · rw [e2, e1, Nat.add_assoc]

theorem processEvent_chunkRange (cfg : StreamAdapterCfg) (st : AdapterState)
    (e : AntigravityStreamEvent) :
    ∃ k, chunkIndices (processEvent cfg st e).1 = List.range' st.messageIndex k ∧
      (processEvent cfg st e).2.messageIndex = st.messageIndex + k := by
  unfold processEvent
  cases e.response with
  | none => exact ⟨0, by simp [chunkIndices], rfl⟩
  | some r => exact processCandidates_chunkRange cfg r.candidates st

theorem processEvents_chunkRange (cfg : StreamAdapterCfg) :
    ∀ (es : List AntigravityStreamEvent) (st : AdapterState),
      ∃ k, chunkIndices (processEvents cfg st es).1 = List.range' st.messageIndex k ∧
        (processEvents cfg st es).2.messageIndex = st.messageIndex + k
  | [], st => ⟨0, by simp [processEvents, chunkIndices], rfl⟩
  | e :: es, st => by
    obtain ⟨k1, h1, e1⟩ := processEvent_chunkRange cfg st e
    obtain ⟨k2, h2, e2⟩ := processEvents_chunkRange cfg es (processEvent cfg st e).2
    rw [processEvents_cons]
    refine ⟨k1 + k2, ?_, ?_⟩
    · exact chunkRange_append h1 (by rw [h2, e1])
    · rw [e2, e1, Nat.add_assoc]

/-- C10: over one whole adapter run, the indices of message and thought
chunks taken together in emission order are exactly `0, 1, 2, …` — a
single shared counter, strictly increasing regardless of how the two
chunk kinds interleave. -/
theorem c10_shared_chunk_index_counter (cfg : StreamAdapterCfg)
    (events : List AntigravityStreamEvent) :
    chunkIndices (runAdapter cfg events).1 =
      List.range (runAdapter cfg events).2.messageIndex := by
  obtain ⟨k, h, e⟩ := processEvents_chunkRange cfg events initialAdapterState
  unfold runAdapter
  rw [h, e]
  show _ = List.range (0 + k)
  rw [Nat.zero_add, List.range_eq_range']
  rfl

/-! ## Session-store infrastructure lemmas -/

theorem find?_updateSessionList (sid : String) (f : SessionState → SessionState)
    (hf : ∀ s, (f s).id = s.id) :
    ∀ l : List SessionState,
      (updateSessionList sid f l).find? (fun s => s.id == sid) =
        (l.find? (fun s => s.id == sid)).map f
  | [] => rfl
  | s :: rest => by
    by_cases hs : s.id == sid
    · simp [updateSessionList, hs, List.find?_cons, hf]
    · simp only [updateSessionList, if_neg hs]
      rw [List.find?_cons_of_neg _ (by simpa using hs), List.find?_cons_of_neg _ (by simpa using hs)]
      exact find?_updateSessionList sid f hf rest

theorem findSession_updateSession (m : SessionManagerState) (sid : String)
    (f : SessionState → SessionState) (hf : ∀ s, (f s).id = s.id) :
    findSession (updateSession m sid f) sid = (findSession m sid).map f := by
  unfold findSession updateSession
  exact find?_updateSessionList sid f hf m.sessions

theorem findSession_setAbortController (m : SessionManagerState) (sid : String)
    (c : Option Nat) :
    findSession (setAbortController m sid c) sid =
      (findSession m sid).map (fun s => { s with abortController := c }) :=
  findSession_updateSession m sid _ (fun _ => rfl)

theorem findSession_abortController_heap (m : SessionManagerState) (cid : Nat) (sid : String) :
    findSession (abortController m cid) sid = findSession m sid := rfl

theorem findSession_updateSession_contents (m : SessionManagerState) (sid : String)
    (g : SessionState → List Content) :
    findSession (updateSession m sid (fun s => { s with contents := g s })) sid =
      (findSession m sid).map (fun s => { s with contents := g s }) :=
  findSession_updateSession m sid _ (fun _ => rfl)

theorem cancelSession_found (m : SessionManagerState) (sid : String) (s : SessionState)
    (hs : findSession m sid = some s) :
    cancelSession m sid =
      (match s.abortController with
       | some cid => (true, setAbortController (abortController m cid) sid none)
       | none => (false, m)) := by
  unfold cancelSession
  rw [hs]

theorem addToolResult_found (m : SessionManagerState) (sid callId name : String)
    (result : JsonValue) (s : SessionState) (hs : findSession m sid = some s) :
    addToolResult m sid callId name result =
      updateSession m sid (fun s =>
        { s with contents := s.contents ++
            [⟨"user", [functionResponsePart
                { name := name, response := normalizeToolResult result, id := some callId }]⟩] }) := by
  unfold addToolResult
  rw [hs]

/-! ## C8 — cancellation semantics -/

/-- C8: cancelling with no live handle (absent session included) returns
`false` and leaves the state unchanged; cancelling with a live handle
returns `true`, marks that controller aborted, and clears the slot; and
the `cancel` request always answers with a result, never an error. -/
theorem c8_cancellation_semantics :
    (∀ (m : SessionManagerState) (sid : String),
      (findSession m sid).bind (fun s => s.abortController) = none →
      cancelSession m sid = (false, m)) ∧
    (∀ (m : SessionManagerState) (sid : String) (s : SessionState) (cid : Nat),
      findSession m sid = some s → s.abortController = some cid →
      (cancelSession m sid).1 = true ∧
      (findSession (cancelSession m sid).2 sid).map (fun s => s.abortController) = some none ∧
      (∀ b, (cid, b) ∈ (cancelSession m sid).2.controllers → b = true)) ∧
    (∀ (st : ServerState) (id : Nat) (sid : String),
      (handleCancel st id sid).2 =
        [.response id (.cancelResult (cancelSession st.manager sid).1)]) := by
  refine ⟨?_, ?_, ?_⟩
  · intro m sid h
    cases hs : findSession m sid with
    | none =>
      unfold cancelSession
      rw [hs]
    | some s =>
      rw [hs] at h
      change s.abortController = none at h
      rw [cancelSession_found m sid s hs, h]
  · intro m sid s cid hs hc
    have hcs : cancelSession m sid =
        (true, setAbortController (abortController m cid) sid none) := by
      rw [cancelSession_found m sid s hs, hc]
    refine ⟨by rw [hcs], ?_, ?_⟩
    · rw [hcs]
      show (findSession (setAbortController (abortController m cid) sid none) sid).map _ = _
      rw [findSession_setAbortController, findSession_abortController_heap, hs]
      rfl
    · intro b hb
      rw [hcs] at hb
      change (cid, b) ∈ (abortController m cid).controllers at hb
      simp only [abortController] at hb
      rcases List.mem_map.mp hb with ⟨p, _, hp⟩
      by_cases hpc : p.1 == cid
      · rw [if_pos hpc] at hp
        have := congrArg Prod.snd hp
        simpa using this.symm
      · rw [if_neg hpc] at hp
        have h1 : p.1 = cid := by rw [hp]
        exact absurd (by simpa using h1) hpc
  · intro st id sid
    rfl

/-- A store holding one session with a live cancellation handle. -/
def liveHandleSession : SessionState :=
  { id := "s", model := "m", systemInstruction := none, tools := [],
    contents := [], createdAt := 0, abortController := some 0 }

/-- Empty store, used as the no-live-handle witness input. -/
def emptyStore : SessionManagerState :=
  { defaultModel := "m", sessions := [], controllers := [], nextController := 0 }

/-- Store with one live controller, used as the live-handle witness input. -/
def liveHandleStore : SessionManagerState :=
  { defaultModel := "m", sessions := [liveHandleSession],
    controllers := [(0, false)], nextController := 1 }

/-- Witness for `c8_cancellation_semantics` at concrete inputs: an
empty store (no live handle) and a one-session store with a live
controller. -/
theorem c8_cancellation_semantics_witness :
    cancelSession emptyStore "s" = (false, emptyStore) ∧
    (cancelSession liveHandleStore "s").1 = true := by
  constructor
  · exact c8_cancellation_semantics.1 emptyStore "s" rfl
  · exact (c8_cancellation_semantics.2.1 liveHandleStore "s" liveHandleSession 0 rfl rfl).1

/-! ## C9 — tool-result normalization -/

/-- C9: `addToolResult` on an existing session appends one user-role
element whose `functionResponse` is named after the tool and keyed by
the call id; a plain-string result is wrapped as `{ output: result }`
and any other value is stored unchanged. -/
theorem c9_tool_result_normalization (m : SessionManagerState)
    (sid callId name : String) (result : JsonValue) (s : SessionState)
    (hs : findSession m sid = some s) :
    (findSession (addToolResult m sid callId name result) sid).map (fun s => s.contents) =
      some (s.contents ++
        [⟨"user", [functionResponsePart
            { name := name, response := normalizeToolResult result, id := some callId }]⟩]) ∧
    (∀ str, result = .str str →
      normalizeToolResult result = .obj [("output", .str str)]) ∧
    ((∀ str, result ≠ .str str) → normalizeToolResult result = result) := by
  refine ⟨?_, ?_, ?_⟩
  · rw [addToolResult_found m sid callId name result s hs,
      findSession_updateSession_contents, hs]
    rfl
  · intro str h
    rw [h]
    rfl
  · intro h
    cases result with
    | str s => exact absurd rfl (h s)
    | num n => rfl
    | boolVal b => rfl
    | null => rfl
    | arr xs => rfl
    | obj fs => rfl

/-- A session with empty history and no live handle. -/
def plainSession : SessionState :=
  { id := "s", model := "m", systemInstruction := none, tools := [],
    contents := [], createdAt := 0, abortController := none }

/-- A store holding just `plainSession`. -/
def plainStore : SessionManagerState :=
  { defaultModel := "m", sessions := [plainSession], controllers := [], nextController := 0 }

/-- The function-response part stored by the spec's normalization
example `addToolResult(id, "c1", "read_file", "hello")`. -/
def helloResponsePart : Part :=
  functionResponsePart
    { name := "read_file", response := .obj [("output", .str "hello")], id := some "c1" }

/-- Witness for `c9_tool_result_normalization`: the spec's own example
`addToolResult(id, "c1", "read_file", "hello")` stores
`{ output: "hello" }` on a concrete one-session store. -/
theorem c9_tool_result_normalization_witness :
    (findSession (addToolResult plainStore "s" "c1" "read_file" (.str "hello")) "s").map
        (fun s => s.contents) =
      some [⟨"user", [helloResponsePart]⟩] := by
  exact (c9_tool_result_normalization plainStore "s" "c1" "read_file" (.str "hello")
    plainSession rfl).1

/-! ## C2 — assistant-text merging into the trailing model element -/

/-- The merge test actually performed by `addAssistantMessage`: some
part has its `text` key present and its `thought` key absent. -/
def hasPlainTextPart (ps : List Part) : Bool :=
  ps.any (fun p => p.text.isSome && p.thought == none)

/-- Trailing element into which `addAssistantMessage` would merge:
present, role `model`, and holding a plain text part. -/
def trailingMergeable (contents : List Content) : Bool :=
  match contents.getLast? with
  | some last => last.role == "model" && hasPlainTextPart last.parts
  | none => false

/-- The spec's merge condition, following its words: the trailing model
element's sub-parts are *pure text-in-progress* (every sub-part is an
in-progress plain text part — no thought marking, no tool call, no tool
response). -/
def specPureTextInProgress (c : Content) : Bool :=
  c.role == "model" &&
  c.parts.all (fun p =>
    p.text.isSome && p.thought == none && p.functionCall.isNone && p.functionResponse.isNone)

theorem appendToTextPart_eq_none_iff (t : String) :
    ∀ ps : List Part, appendToTextPart t ps = none ↔ hasPlainTextPart ps = false
  | [] => by simp [appendToTextPart, hasPlainTextPart]
  | p :: ps => by
    by_cases hp : p.text.isSome ∧ p.thought = none
    · simp [appendToTextPart, hp, hasPlainTextPart, hp.1, hp.2]
    · have hb : (p.text.isSome && p.thought == none) = false := by
        rcases not_and_or.mp hp with h | h
        · simp [Bool.eq_false_iff.mpr h]
        · simp [h]
      rw [appendToTextPart, if_neg hp]
      simp only [hasPlainTextPart, List.any_cons, hb, Bool.false_or, Option.map_eq_none']
      exact appendToTextPart_eq_none_iff t ps

theorem addAssistantMessage_found (m : SessionManagerState) (sid t : String)
    (s : SessionState) (hs : findSession m sid = some s) :
    addAssistantMessage m sid t =
      (match s.contents.getLast? with
       | some last =>
         if last.role == "model" then
           match appendToTextPart t last.parts with
           | some ps' =>
             updateSession m sid (fun s =>
               { s with contents := s.contents.dropLast ++ [{ last with parts := ps' }] })
           | none =>
             updateSession m sid (fun s =>
               { s with contents := s.contents ++ [⟨"model", [textPart t]⟩] })
         else
           updateSession m sid (fun s =>
             { s with contents := s.contents ++ [⟨"model", [textPart t]⟩] })
       | none =>
         updateSession m sid (fun s =>
           { s with contents := s.contents ++ [⟨"model", [textPart t]⟩] })) := by
  unfold addAssistantMessage
  rw [hs]

theorem addAssistantMessage_not_mergeable (m : SessionManagerState) (sid t : String)
    (s : SessionState) (hs : findSession m sid = some s)
    (hmg : trailingMergeable s.contents = false) :
    addAssistantMessage m sid t =
      updateSession m sid (fun s =>
        { s with contents := s.contents ++ [⟨"model", [textPart t]⟩] }) := by
  rw [addAssistantMessage_found m sid t s hs]
  cases hl : s.contents.getLast? with
  | none => rfl
  | some last =>
    unfold trailingMergeable at hmg
    rw [hl] at hmg
    change (last.role == "model" && hasPlainTextPart last.parts) = false at hmg
    cases hrole : (last.role == "model") with
    | false => simp [hrole]
    | true =>
      rw [hrole, Bool.true_and] at hmg
      simp [hrole, (appendToTextPart_eq_none_iff t last.parts).mpr hmg]

theorem addAssistantMessage_mergeable (m : SessionManagerState) (sid t : String)
    (s : SessionState) (last : Content) (ps' : List Part)
    (hs : findSession m sid = some s) (hl : s.contents.getLast? = some last)
    (hrole : (last.role == "model") = true)
    (hap : appendToTextPart t last.parts = some ps') :
    addAssistantMessage m sid t =
      updateSession m sid (fun s =>
        { s with contents := s.contents.dropLast ++ [{ last with parts := ps' }] }) := by
  rw [addAssistantMessage_found m sid t s hs, hl]
  simp [hrole, hap]

/-- C2 counterexample input: a tool call requested by the backend. -/
def c2Fc : FunctionCall := { name := "t", args := .obj [], id := some "c0" }

/-- Trailing model element mixing a text part with a tool call — not
pure text-in-progress. -/
def mixedTrailingElement : Content := ⟨"model", [textPart "a", functionCallPart c2Fc]⟩

/-- A session whose trailing model element is `mixedTrailingElement`. -/
def mixedTrailingSession : SessionState :=
  { id := "s", model := "m", systemInstruction := none, tools := [],
    contents := [mixedTrailingElement], createdAt := 0, abortController := none }

/-- Store holding `mixedTrailingSession`. -/
def mixedTrailingStore : SessionManagerState :=
  { defaultModel := "m", sessions := [mixedTrailingSession],
    controllers := [], nextController := 0 }

/-- C2 counterexample: the trailing model element holds a text part
*and* a tool call, so its sub-parts are not pure text-in-progress — the
claim then requires a new model element to be opened — yet
`addAssistantMessage` merges the text into the existing element (the
history still has exactly one element, with text `"ab"`). -/
theorem c2_counterexample_merges_into_mixed_element :
    specPureTextInProgress mixedTrailingElement = false ∧
    (findSession (addAssistantMessage mixedTrailingStore "s" "b") "s").map
        (fun s => s.contents) =
      some [⟨"model", [textPart "ab", functionCallPart c2Fc]⟩] :=
  ⟨rfl, rfl⟩

/-- C2 (amended): `addAssistantMessage` merges into the trailing element
exactly when that element exists, has role `model`, and contains at
least one plain text part (text key present, thought key absent) — not
only when its sub-parts are pure text-in-progress; the merge lands in
the first such part.  When no such trailing element exists, a new model
element is opened, and two successive appends then yield one trailing
model element with the concatenated text, not two elements. -/
theorem c2_assistant_text_merge_rules :
    (∀ (m : SessionManagerState) (sid : String) (s : SessionState) (t1 t2 : String),
      findSession m sid = some s → trailingMergeable s.contents = false →
      (findSession (addAssistantMessage m sid t1) sid).map (fun s => s.contents) =
        some (s.contents ++ [⟨"model", [textPart t1]⟩]) ∧
      (findSession (addAssistantMessage (addAssistantMessage m sid t1) sid t2) sid).map
          (fun s => s.contents) =
        some (s.contents ++ [⟨"model", [textPart (t1 ++ t2)]⟩])) ∧
    (∀ (m : SessionManagerState) (sid : String) (s : SessionState) (t : String)
        (last : Content) (ps' : List Part),
      findSession m sid = some s → s.contents.getLast? = some last →
      (last.role == "model") = true → appendToTextPart t last.parts = some ps' →
      (findSession (addAssistantMessage m sid t) sid).map (fun s => s.contents) =
        some (s.contents.dropLast ++ [{ last with parts := ps' }])) := by
  constructor
  · intro m sid s t1 t2 hs hmg
    have h1 := addAssistantMessage_not_mergeable m sid t1 s hs hmg
    have hs1 : findSession (addAssistantMessage m sid t1) sid =
        some { s with contents := s.contents ++ [⟨"model", [textPart t1]⟩] } := by
      rw [h1, findSession_updateSession_contents, hs]
      rfl
    constructor
    · rw [hs1]
      rfl
    · have hl1 : ({ s with contents := s.contents ++ [⟨"model", [textPart t1]⟩]} :
          SessionState).contents.getLast? = some ⟨"model", [textPart t1]⟩ := by
        simp
      have h2 := addAssistantMessage_mergeable (addAssistantMessage m sid t1) sid t2
        { s with contents := s.contents ++ [⟨"model", [textPart t1]⟩] }
        ⟨"model", [textPart t1]⟩ [textPart (t1 ++ t2)] hs1 hl1 rfl rfl
      rw [h2, findSession_updateSession_contents, hs1]
      simp
  · intro m sid s t last ps' hs hl hrole hap
    rw [addAssistantMessage_mergeable m sid t s last ps' hs hl hrole hap,
      findSession_updateSession_contents, hs]
    rfl

/-- Witness for `c2_assistant_text_merge_rules`: double append on a
fresh-history session produces one merged model element `"xy"`, and a
single append on the mixed trailing element merges into its text part. -/
theorem c2_assistant_text_merge_rules_witness :
    (findSession (addAssistantMessage (addAssistantMessage plainStore "s" "x") "s" "y")
        "s").map (fun s => s.contents) =
      some [⟨"model", [textPart ("x" ++ "y")]⟩] ∧
    (findSession (addAssistantMessage mixedTrailingStore "s" "b") "s").map
        (fun s => s.contents) =
      some [⟨"model", [textPart "ab", functionCallPart c2Fc]⟩] := by
  constructor
  · exact (c2_assistant_text_merge_rules.1 plainStore "s" plainSession "x" "y" rfl rfl).2
  · exact c2_assistant_text_merge_rules.2 mixedTrailingStore "s" mixedTrailingSession "b"
      mixedTrailingElement [textPart "ab", functionCallPart c2Fc] rfl rfl rfl rfl

/-! ## C6 — initialization gating -/

/-- Whether an output line is a JSON-RPC error response with the given
code. -/
def OutItem.hasErrorCode (o : OutItem) (c : Int) : Bool :=
  match o with
  | .errorResponse _ c2 _ => c2 == c
  | _ => false

/-- C6 counterexample: on a freshly created (uninitialized) server, a
`cancel` request is *not* rejected with -32002 — it is answered with a
normal result (`cancelled: false`); the claimed gate covers only
`newSession`, `prompt` and `toolResult`. -/
theorem c6_counterexample_cancel_not_gated :
    (createAcpServer {}).initialized = false ∧
    (handleRequest (createAcpServer {}) {} (.cancel 1 "s")).2 =
      [.response 1 (.cancelResult false)] ∧
    ((handleRequest (createAcpServer {}) {} (.cancel 1 "s")).2.all
      (fun o => !(o.hasErrorCode (-32002)))) = true :=
  ⟨rfl, rfl, rfl⟩

/-- C6 (amended): before `initialize` has been handled, `newSession`,
`prompt` and `toolResult` are rejected with -32002, while `cancel` and
`shutdown` are served normally (never -32002) and `initialize` itself is
never gated. -/
theorem c6_initialize_gate (st : ServerState) (amb : Ambient)
    (h : st.initialized = false) :
    (∀ (id : Nat) (config : Option SessionConfig),
      (handleNewSession st amb id config).2 =
        [.errorResponse id (-32002) "Server not initialized"]) ∧
    (∀ (id : Nat) (params : PromptParams),
      (handlePrompt st amb id params).2.1 =
        [.errorResponse id (-32002) "Server not initialized"]) ∧
    (∀ (id : Nat) (params : ToolResultParams),
      (handleToolResult st amb id params).2.1 =
        [.errorResponse id (-32002) "Server not initialized"]) ∧
    (∀ (id : Nat) (sid : String),
      (handleCancel st id sid).2 =
        [.response id (.cancelResult (cancelSession st.manager sid).1)]) ∧
    (∀ id : Nat, (handleShutdown st id).2 = [.response id .emptyResult]) ∧
    (∀ id : Nat, (handleInitialize st amb id).2 = [.response id .initializeResult]) := by
  refine ⟨?_, ?_, ?_, ?_, ?_, ?_⟩
  · intro id config
    simp [handleNewSession, h]
  · intro id params
    simp [handlePrompt, h]
  · intro id params
    simp [handleToolResult, h]
  · intro id sid
    rfl
  · intro id
    rfl
  · intro id
    rfl

/-- Witness for `c6_initialize_gate` on a fresh server. -/
theorem c6_initialize_gate_witness :
    (handleNewSession (createAcpServer {}) {} 1 none).2 =
      [.errorResponse 1 (-32002) "Server not initialized"] ∧
    (handleCancel (createAcpServer {}) 2 "s").2 =
      [.response 2 (.cancelResult (cancelSession (createAcpServer {}).manager "s").1)] := by
  constructor
  · exact (c6_initialize_gate (createAcpServer {}) {} rfl).1 1 none
  · exact (c6_initialize_gate (createAcpServer {}) {} rfl).2.2.2.1 2 "s"

/-! ## C5 — tool-call updates and catalogue resolution -/

/-- The call-identifier rule of `createToolCall`:
`functionCall.id || call_<sid>_<Date.now()>` (empty string is falsy). -/
def toolCallIdOf (cfg : StreamAdapterCfg) (fc : FunctionCall) : String :=
  match fc.id with
  | some i => if i ≠ "" then i else "call_" ++ cfg.sessionId ++ "_" ++ toString cfg.now
  | none => "call_" ++ cfg.sessionId ++ "_" ++ toString cfg.now

/-- The backend requesting one tool call and pausing for tool use. -/
def fcStreamEvent (fc : FunctionCall) : AntigravityStreamEvent :=
  { response := some { candidates :=
      [{ content := some ⟨"model", [functionCallPart fc]⟩, finishReason := some .TOOL_USE }] } }

/-- The C5 scenario's tool call: a name present in the default
catalogue, with a backend-supplied id. -/
def c5Fc : FunctionCall :=
  { name := "read_file", args := .obj [("path", .str "a.txt")], id := some "c1" }

/-- A prompt turn on the C1 session whose stream requests `read_file`. -/
def toolCallPromptRun : ServerState × List OutItem × Option BackendRequest :=
  handlePrompt serverAfterNewSession { backend := .ok [fcStreamEvent c5Fc] } 4
    { sessionId := "s1", messages := [] }

/-- C5 counterexample: the session has no catalogue override, so the
effective catalogue is the process default `ACP_TOOLS`, which knows
`read_file` — yet the emitted `tool_call` carries the synthesized
minimal definition (empty description and empty schema), because the
handlers create the stream adapter without passing any catalogue. -/
theorem c5_counterexample_catalogue_not_resolved :
    toolCallPromptRun.2.1 =
      [.notification ⟨"s1", .toolCall "c1" (minimalTool "read_file")
          (.obj [("path", .str "a.txt")])⟩,
       .notification ⟨"s1", .sessionComplete "tool_use"⟩,
       .response 4 (.promptResult (some [("c1", "read_file")]))] ∧
    (findSession toolCallPromptRun.1.manager "s1").map (fun s => s.tools) = some [] ∧
    serverAfterNewSession.tools = ACP_TOOLS ∧
    (lookupTool ACP_TOOLS "read_file").map (fun t => t.description) =
      some "Read the contents of a file at the specified path" ∧
    (minimalTool "read_file").description = "" ∧
    ("" : String) ≠ "Read the contents of a file at the specified path" :=
  ⟨rfl, rfl, rfl, rfl, rfl, by decide⟩

/-- C5 (amended): every tool-invocation part yields exactly one
`tool_call` update whose call identifier is the backend id when present
and non-empty, and a synthesized `call_<sid>_<now>` otherwise; its tool
definition is resolved against the catalogue the *adapter* was created
with, falling back to a synthesized minimal definition — and since
`handlePrompt`/`handleToolResult` create the adapter with no catalogue,
in a turn every tool call carries the minimal definition regardless of
the session or default catalogue; the input is the structured
arguments. -/
theorem c5_tool_call_resolution :
    (∀ (cfg : StreamAdapterCfg) (st : AdapterState) (fc : FunctionCall),
      processPart cfg st (functionCallPart fc) =
        ([⟨cfg.sessionId, .toolCall (toolCallIdOf cfg fc)
            ((lookupTool cfg.tools fc.name).getD (minimalTool fc.name)) fc.args⟩],
         { st with currentToolCallId := some (toolCallIdOf cfg fc) })) ∧
    (∀ (st : ServerState) (amb : Ambient) (id : Nat) (params : PromptParams)
        (s : SessionState) (fc : FunctionCall) (i : String),
      st.initialized = true → st.hasClient = true →
      findSession st.manager params.sessionId = some s →
      amb.backend = .ok [fcStreamEvent fc] →
      fc.id = some i → i ≠ "" →
      (handlePrompt st amb id params).2.1 =
        [.notification ⟨params.sessionId, .toolCall i (minimalTool fc.name) fc.args⟩,
         .notification ⟨params.sessionId, .sessionComplete "tool_use"⟩,
         .response id (.promptResult (some [(i, fc.name)]))]) := by
  constructor
  · intro cfg st fc
    cases hlk : lookupTool cfg.tools fc.name with
    | none =>
      simp [processPart, functionCallPart, createToolCall, createNotification,
        toolCallIdOf, hlk]
    | some t =>
      simp [processPart, functionCallPart, createToolCall, createNotification,
        toolCallIdOf, hlk]
  · intro st amb id params s fc i h1 h2 hfind hb hid hi
    simp [handlePrompt, h1, h2, hfind, hb, finishTurn, runTurnEvents, processEvent,
      fcStreamEvent, processCandidates, processCandidate, processParts, processPart,
      functionCallPart, createToolCall, createNotification, lookupTool, finishNotifications,
      applyNotifications, applyNotification, hid, hi, initialAdapterState, minimalTool]

/-- Witness for `c5_tool_call_resolution` at concrete inputs. -/
theorem c5_tool_call_resolution_witness :
    processPart { sessionId := "s", now := 7 } initialAdapterState (functionCallPart c5Fc) =
      ([⟨"s", .toolCall "c1" (minimalTool "read_file") (.obj [("path", .str "a.txt")])⟩],
       { initialAdapterState with currentToolCallId := some "c1" }) ∧
    toolCallPromptRun.2.1 =
      [.notification ⟨"s1", .toolCall "c1" (minimalTool "read_file")
          (.obj [("path", .str "a.txt")])⟩,
       .notification ⟨"s1", .sessionComplete "tool_use"⟩,
       .response 4 (.promptResult (some [("c1", "read_file")]))] := by
  constructor
  · exact c5_tool_call_resolution.1 { sessionId := "s", now := 7 } initialAdapterState c5Fc
  · exact c5_tool_call_resolution.2 serverAfterNewSession
      { backend := .ok [fcStreamEvent c5Fc] } 4 { sessionId := "s1", messages := [] }
      ((createSession (handleInitialize (createAcpServer {}) { authOk := true } 1).1.manager
          "s1" 0 none).1) c5Fc "c1" rfl rfl rfl rfl rfl (by decide)

/-! ## C7 — the cancellation handle is cleared however the turn ends -/

theorem ids_updateSessionList (sid : String) (f : SessionState → SessionState)
    (hf : ∀ s, (f s).id = s.id) :
    ∀ l : List SessionState,
      (updateSessionList sid f l).map (fun s => s.id) = l.map (fun s => s.id)
  | [] => rfl
  | s :: rest => by
    by_cases h : s.id == sid
    · simp [updateSessionList, h, hf]
    · simp [updateSessionList, h, ids_updateSessionList sid f hf rest]

theorem sessionIds_updateSession (m : SessionManagerState) (sid : String)
    (f : SessionState → SessionState) (hf : ∀ s, (f s).id = s.id) :
    (updateSession m sid f).sessions.map (fun s => s.id) =
      m.sessions.map (fun s => s.id) :=
  ids_updateSessionList sid f hf m.sessions

theorem sessionIds_setAbortController (m : SessionManagerState) (sid : String)
    (c : Option Nat) :
    (setAbortController m sid c).sessions.map (fun s => s.id) =
      m.sessions.map (fun s => s.id) :=
  sessionIds_updateSession m sid _ (fun _ => rfl)

theorem sessionIds_addUserMessage (m : SessionManagerState) (sid t : String) :
    (addUserMessage m sid t).sessions.map (fun s => s.id) =
      m.sessions.map (fun s => s.id) := by
  unfold addUserMessage
  cases hs : findSession m sid with
  | none => rfl
  | some s => exact sessionIds_updateSession m sid _ (fun _ => rfl)

theorem sessionIds_addToolResult (m : SessionManagerState) (sid callId name : String)
    (result : JsonValue) :
    (addToolResult m sid callId name result).sessions.map (fun s => s.id) =
      m.sessions.map (fun s => s.id) := by
  unfold addToolResult
  cases hs : findSession m sid with
  | none => rfl
  | some s => exact sessionIds_updateSession m sid _ (fun _ => rfl)

theorem addToolCall_found (m : SessionManagerState) (sid : String) (fc : FunctionCall)
    (s : SessionState) (hs : findSession m sid = some s) :
    addToolCall m sid fc =
      (match s.contents.getLast? with
       | some last =>
         if last.role == "model" then
           updateSession m sid (fun s =>
             { s with contents :=
                 s.contents.dropLast ++ [{ last with parts := last.parts ++ [functionCallPart fc] }] })
         else
           updateSession m sid (fun s =>
             { s with contents := s.contents ++ [⟨"model", [functionCallPart fc]⟩] })
       | none =>
         updateSession m sid (fun s =>
           { s with contents := s.contents ++ [⟨"model", [functionCallPart fc]⟩] })) := by
  unfold addToolCall
  rw [hs]

theorem sessionIds_addToolCall (m : SessionManagerState) (sid : String) (fc : FunctionCall) :
    (addToolCall m sid fc).sessions.map (fun s => s.id) =
      m.sessions.map (fun s => s.id) := by
  cases hs : findSession m sid with
  | none =>
    unfold addToolCall
    rw [hs]
  | some s =>
    rw [addToolCall_found m sid fc s hs]
    cases hl : s.contents.getLast? with
    | none => exact sessionIds_updateSession m sid _ (fun _ => rfl)
    | some last =>
      cases hrole : (last.role == "model") with
      | false =>
        simp only [hrole, Bool.false_eq_true, if_false]
        exact sessionIds_updateSession m sid _ (fun _ => rfl)
      | true =>
        simp only [hrole, if_true]
        exact sessionIds_updateSession m sid _ (fun _ => rfl)

theorem sessionIds_addAssistantMessage (m : SessionManagerState) (sid t : String) :
    (addAssistantMessage m sid t).sessions.map (fun s => s.id) =
      m.sessions.map (fun s => s.id) := by
  cases hs : findSession m sid with
  | none =>
    unfold addAssistantMessage
    rw [hs]
  | some s =>
    rw [addAssistantMessage_found m sid t s hs]
    cases hl : s.contents.getLast? with
    | none => exact sessionIds_updateSession m sid _ (fun _ => rfl)
    | some last =>
      cases hrole : (last.role == "model") with
      | false =>
        simp only [hrole, Bool.false_eq_true, if_false]
        exact sessionIds_updateSession m sid _ (fun _ => rfl)
      | true =>
        simp only [hrole, if_true]
        cases hap : appendToTextPart t last.parts with
        | none => exact sessionIds_updateSession m sid _ (fun _ => rfl)
        | some ps' => exact sessionIds_updateSession m sid _ (fun _ => rfl)

theorem sessionIds_applyNotification (sid accText : String) (acc : TurnAcc)
    (n : SessionUpdateNotification) :
    (applyNotification sid accText acc n).manager.sessions.map (fun s => s.id) =
      acc.manager.sessions.map (fun s => s.id) := by
  unfold applyNotification
  cases hu : n.update with
  | toolCall callId tool input => exact sessionIds_addToolCall _ _ _
  | sessionComplete r =>
    by_cases hacc : accText ≠ ""
    · simp only [if_pos hacc]
      exact sessionIds_addAssistantMessage _ _ _
    · simp only [if_neg hacc]
  | agentMessageChunk a b c => rfl
  | agentThoughtChunk a b c => rfl
  | sessionError a b => rfl

theorem sessionIds_applyNotifications (sid accText : String) :
    ∀ (ns : List SessionUpdateNotification) (acc : TurnAcc),
      (applyNotifications sid accText acc ns).manager.sessions.map (fun s => s.id) =
        acc.manager.sessions.map (fun s => s.id)
  | [], acc => rfl
  | n :: ns, acc => by
    show (applyNotifications sid accText (applyNotification sid accText acc n) ns).manager.sessions.map _ = _
    rw [sessionIds_applyNotifications sid accText ns _, sessionIds_applyNotification]

theorem sessionIds_runTurnEvents (cfg : StreamAdapterCfg) (sid : String) :
    ∀ (es : List AntigravityStreamEvent) (adSt : AdapterState) (acc : TurnAcc),
      (runTurnEvents cfg sid adSt acc es).1.manager.sessions.map (fun s => s.id) =
        acc.manager.sessions.map (fun s => s.id)
  | [], _, _ => rfl
  | e :: es, adSt, acc => by
    show (runTurnEvents cfg sid (processEvent cfg adSt e).2
        (applyNotifications sid (processEvent cfg adSt e).2.accumulatedText acc
          (processEvent cfg adSt e).1) es).1.manager.sessions.map _ = _
    rw [sessionIds_runTurnEvents cfg sid es _ _, sessionIds_applyNotifications]

theorem find?_isSome_eq_any (p : SessionState → Bool) :
    ∀ l : List SessionState, (l.find? p).isSome = l.any p
  | [] => rfl
  | s :: rest => by
    by_cases h : p s
    · simp [List.find?_cons, h]
    · simp [List.find?_cons, h, find?_isSome_eq_any p rest]

theorem isSome_of_sessionIds_eq (m m' : SessionManagerState) (sid : String)
    (h : m'.sessions.map (fun s => s.id) = m.sessions.map (fun s => s.id)) :
    (findSession m' sid).isSome = (findSession m sid).isSome := by
  have h1 : ∀ mm : SessionManagerState,
      mm.sessions.any (fun s => s.id == sid) =
        (mm.sessions.map (fun s => s.id)).any (fun x => x == sid) := by
    intro mm
    induction mm.sessions with
    | nil => rfl
    | cons a t ih => simp [List.any_cons, ih]
  show (m'.sessions.find? (fun s => s.id == sid)).isSome =
    (m.sessions.find? (fun s => s.id == sid)).isSome
  rw [find?_isSome_eq_any, find?_isSome_eq_any, h1, h1, h]

theorem abortCleared_of_isSome (m : SessionManagerState) (sid : String)
    (h : (findSession m sid).isSome = true) :
    (findSession (setAbortController m sid none) sid).map (fun s => s.abortController) =
      some none := by
  obtain ⟨s, hs⟩ := Option.isSome_iff_exists.mp h
  rw [findSession_setAbortController, hs]
  rfl

theorem finishTurn_clears_handle (st : ServerState) (amb : Ambient) (id : Nat)
    (sid : String) (m : SessionManagerState)
    (h : (findSession m sid).isSome = true) :
    (findSession (finishTurn st amb id sid m).1.manager sid).map
      (fun s => s.abortController) = some none := by
  unfold finishTurn
  cases hb : amb.backend with
  | ok events =>
    apply abortCleared_of_isSome
    rw [isSome_of_sessionIds_eq m _ sid
      (sessionIds_runTurnEvents { sessionId := sid, tools := [], now := amb.now } sid events
        initialAdapterState ⟨m, [], []⟩)]
    exact h
  | failure processed isAbort msg =>
    apply abortCleared_of_isSome
    rw [isSome_of_sessionIds_eq m _ sid
      (sessionIds_runTurnEvents { sessionId := sid, tools := [], now := amb.now } sid processed
        initialAdapterState ⟨m, [], []⟩)]
    exact h

/-- C7: an initialized, authenticated prompt or tool-result turn on an
existing session always ends with the session's cancellation-handle
slot cleared to none — whether the stream completed, aborted, or failed
(all `BackendOutcome`s are covered) — so the session stays usable. -/
theorem c7_cancellation_handle_cleared (st : ServerState) (amb : Ambient) (id : Nat)
    (pp : PromptParams) (tp : ToolResultParams)
    (h1 : st.initialized = true) (h2 : st.hasClient = true)
    (hp : (findSession st.manager pp.sessionId).isSome = true)
    (ht : (findSession st.manager tp.sessionId).isSome = true) :
    (findSession (handlePrompt st amb id pp).1.manager pp.sessionId).map
        (fun s => s.abortController) = some none ∧
    (findSession (handleToolResult st amb id tp).1.manager tp.sessionId).map
        (fun s => s.abortController) = some none := by
  constructor
  · obtain ⟨s, hs⟩ := Option.isSome_iff_exists.mp hp
    have e1 : (if promptUserText pp.messages ≠ "" then
          addUserMessage st.manager pp.sessionId (promptUserText pp.messages)
        else st.manager).sessions.map (fun s => s.id) =
        st.manager.sessions.map (fun s => s.id) := by
      by_cases hu : promptUserText pp.messages ≠ ""
      · simp only [if_pos hu]
        exact sessionIds_addUserMessage _ _ _
      · simp only [if_neg hu]
    unfold handlePrompt
    simp only [h1, h2, Bool.not_true, Bool.or_self, Bool.false_eq_true, if_false, hs]
    apply finishTurn_clears_handle
    exact (isSome_of_sessionIds_eq st.manager _ pp.sessionId
      ((sessionIds_setAbortController _ pp.sessionId _).trans e1)).trans hp
  · obtain ⟨s, hs⟩ := Option.isSome_iff_exists.mp ht
    have e1 : (addToolResult st.manager tp.sessionId tp.callId tp.tool.name
        tp.result).sessions.map (fun s => s.id) =
        st.manager.sessions.map (fun s => s.id) :=
      sessionIds_addToolResult _ _ _ _ _
    unfold handleToolResult
    simp only [h1, h2, Bool.not_true, Bool.or_self, Bool.false_eq_true, if_false, hs]
    apply finishTurn_clears_handle
    exact (isSome_of_sessionIds_eq st.manager _ tp.sessionId
      ((sessionIds_setAbortController _ tp.sessionId _).trans e1)).trans ht

/-- Witness for `c7_cancellation_handle_cleared`: the C1 scenario's
prompt turn and a tool-result turn on the same session both leave the
slot cleared. -/
theorem c7_cancellation_handle_cleared_witness :
    (findSession helloPromptRun.1.manager "s1").map (fun s => s.abortController) =
      some none ∧
    (findSession (handleToolResult serverAfterNewSession { backend := .ok [] } 5
        { sessionId := "s1", callId := "c1", tool := ⟨"read_file"⟩,
          result := .str "hello" }).1.manager "s1").map (fun s => s.abortController) =
      some none := by
  constructor
  · exact (c7_cancellation_handle_cleared serverAfterNewSession
      { backend := .ok [helloEvent] } 3 { sessionId := "s1", messages := [⟨"user", .str "hi"⟩] }
      { sessionId := "s1", callId := "c1", tool := ⟨"read_file"⟩, result := .str "hello" }
      rfl rfl rfl rfl).1
  · exact (c7_cancellation_handle_cleared serverAfterNewSession
      { backend := .ok [] } 5 { sessionId := "s1", messages := [] }
      { sessionId := "s1", callId := "c1", tool := ⟨"read_file"⟩, result := .str "hello" }
      rfl rfl rfl rfl).2

end AntigravityAcp
